import Mathlib

/-!
# Verification of the `sim` joint-taxonomy and calibration code

Shallow embedding of the repository's core:

* `sim/stompy_legs/joints.py` — the `Node` class hierarchy (joint taxonomy),
  its flattening `all_joints`, the parameter tables of `Stompy`, and the
  duplicate check of `print_joints`.
* `sim/scripts/calibration.py` — the PD control law `pd_control`, the gain
  resolution loops, the static-sweep and sinusoidal-identification loops of
  `run_id_test`, and the joint-selection loop of `main`.
* `sim/scripts/create_fixed_torso.py` — the effort / velocity / friction
  resolution loops of `update_urdf`.

Floating-point values are modelled as exact rationals (`ℚ`); every constant
appearing in the source is exactly representable.
-/

/-! ## Joint taxonomy (`sim/stompy_legs/joints.py`)

A Python `Node` subclass is a bag of class attributes, each either a `str`
(a leaf joint identifier) or a `Node` instance (a child group).  We model a
node as its attribute list in *declaration order*; `dir(cls)`, which the
source uses in `joints()` / `children()`, returns attribute names sorted
alphabetically, which we model by sorting each attribute list by name
(`Child.dirSorted`) before flattening. -/

mutual

/-- A taxonomy tree value: either a leaf joint identifier (a Python `str`
attribute) or a group node (a `Node` subclass with its attribute list). -/
inductive Child where
  | leaf : String → Child
  | node : AttrList → Child

/-- An association list of named class attributes, in declaration order. -/
inductive AttrList where
  | nil : AttrList
  | cons : String → Child → AttrList → AttrList

end

/-- Build an `AttrList` from a plain list of named attributes. -/
def AttrList.ofList : List (String × Child) → AttrList
  | [] => .nil
  | (n, c) :: rest => .cons n c (AttrList.ofList rest)

/-- Strict lexicographic order on character lists, by code point — the order
Python's `sorted` (hence `dir`) uses on identifier strings. -/
def charListLt : List Char → List Char → Bool
  | [], [] => false
  | [], _ :: _ => true
  | _ :: _, [] => false
  | a :: as, b :: bs => if a < b then true else if b < a then false else charListLt as bs

/-- Strict lexicographic order on strings, by code point. -/
def nameLt (a b : String) : Bool := charListLt a.data b.data

/-- Insert attribute `(n, c)` into a name-sorted attribute list, keeping it
sorted (ascending by attribute name, as Python's `dir` sorts). -/
def AttrList.insertSorted (n : String) (c : Child) : AttrList → AttrList
  | .nil => .cons n c .nil
  | .cons m d rest =>
      if nameLt n m then .cons n c (.cons m d rest)
      else .cons m d (AttrList.insertSorted n c rest)

/-- Sort an attribute list by attribute name (insertion sort), modelling the
alphabetical order in which `dir(cls)` enumerates class attributes. -/
def AttrList.dirSort : AttrList → AttrList
  | .nil => .nil
  | .cons n c rest => (AttrList.dirSort rest).insertSorted n c

mutual

/-- Apply `dir`'s alphabetical attribute ordering at every node of the tree. -/
def Child.dirSorted : Child → Child
  | .leaf s => .leaf s
  | .node attrs => .node (AttrList.dirSort attrs.dirSortedList)
termination_by structural t => t

def AttrList.dirSortedList : AttrList → AttrList
  | .nil => .nil
  | .cons n c rest => .cons n c.dirSorted rest.dirSortedList
termination_by structural l => l

end

/-- `Node.joints`: the `str`-valued attributes of a node, in attribute-list
order (the source takes them in `dir` order; we apply this to an already
`dirSorted` tree). -/
def AttrList.strLeaves : AttrList → List String
  | .nil => []
  | .cons _ (.leaf s) rest => s :: rest.strLeaves
  | .cons _ (.node _) rest => rest.strLeaves

mutual

/-- The `for child in cls.children(): if isinstance(child, Node):
leaves.extend(child.all_joints())` loop: `str` children contribute nothing,
`Node` children contribute their own flattening. -/
def AttrList.childJoints : AttrList → List String
  | .nil => []
  | .cons _ c rest => Child.nodeJoints c ++ rest.childJoints
termination_by structural l => l

/-- Contribution of one child: nothing for a `str` leaf, `all_joints` for a
`Node` child. -/
def Child.nodeJoints : Child → List String
  | .leaf _ => []
  | .node attrs => attrs.strLeaves ++ attrs.childJoints
termination_by structural t => t

end

/-- `Node.all_joints` body on a tree whose attribute lists are already in
`dir` order: own `str` leaves first, then each `Node` child's `all_joints`,
children visited in attribute-list order. -/
def Child.flattenJoints : Child → List String
  | .leaf s => [s]
  | .node attrs => attrs.strLeaves ++ attrs.childJoints

/-- `Node.all_joints` of `joints.py`: flatten the tree, enumerating each
node's attributes in `dir(cls)`'s alphabetical order. -/
def Node.all_joints (t : Child) : List String :=
  t.dirSorted.flattenJoints

/-- Modelled from the spec: the flattening the spec describes, "depth-first,
left-to-right declaration order" — i.e. the same traversal without `dir`'s
alphabetical re-ordering of each node's attributes. -/
def Node.declarationOrderJoints (t : Child) : List String :=
  t.flattenJoints

/-- `class LeftLeg(Node)`: attributes in source declaration order. -/
def LeftLeg.attrs : AttrList := .ofList
  [("hip_roll", .leaf "left hip roll"),
   ("hip_yaw", .leaf "left hip yaw"),
   ("hip_pitch", .leaf "left hip pitch"),
   ("knee_pitch", .leaf "left knee pitch"),
   ("ankle_pitch", .leaf "left ankle pitch"),
   ("ankle_roll", .leaf "left ankle roll")]

/-- `class RightLeg(Node)`: attributes in source declaration order. -/
def RightLeg.attrs : AttrList := .ofList
  [("hip_roll", .leaf "right hip roll"),
   ("hip_yaw", .leaf "right hip yaw"),
   ("hip_pitch", .leaf "right hip pitch"),
   ("knee_pitch", .leaf "right knee pitch"),
   ("ankle_pitch", .leaf "right ankle pitch"),
   ("ankle_roll", .leaf "right ankle roll")]

/-- `class Legs(Node)`: `left = LeftLeg()`, `right = RightLeg()`. -/
def Legs.attrs : AttrList := .ofList
  [("left", .node LeftLeg.attrs),
   ("right", .node RightLeg.attrs)]

/-- `class Stompy(Node)`: `legs = Legs()` (the classmethods are neither
`str` nor `Node` attributes, so they do not appear in `children()`). -/
def Stompy.tree : Child := .node (.ofList [("legs", .node Legs.attrs)])

/-- `Stompy.all_joints()`. -/
def Stompy.allJointsList : List String := Node.all_joints Stompy.tree

/-! ## Parameter tables (`Stompy` classmethods in `joints.py`)

Python dicts preserve insertion order, so each table is an association list
in the source's declaration order.  Floats are exact rationals. -/

/-- `Stompy.default_standing()`.  Decimal source constants are written as
exact fractions (`mkRat` keeps every definition kernel-computable);
`Stompy.default_standing_decimals` below checks them against the decimal
literals of the source. -/
def Stompy.default_standing : List (String × ℚ) :=
  [("left hip pitch", mkRat (-12) 10), ("left hip yaw", mkRat 106 100),
   ("left hip roll", mkRat (-3) 100), ("left knee pitch", mkRat (-127) 100),
   ("left ankle pitch", mkRat 173 1000), ("left ankle roll", mkRat 175 100),
   ("right hip pitch", mkRat 42 100), ("right hip yaw", mkRat (-208) 100),
   ("right hip roll", mkRat (-165) 100), ("right knee pitch", mkRat 33 10),
   ("right ankle pitch", mkRat 742 1000), ("right ankle roll", mkRat 169 100)]

/-- `Stompy.default_limits()`: `(lower, upper)` per joint. -/
def Stompy.default_limits : List (String × (ℚ × ℚ)) :=
  [("left hip pitch", (mkRat (-22) 10, mkRat (-2) 10)),
   ("left hip yaw", (mkRat 6 10, mkRat 12 10)),
   ("left hip roll", (mkRat (-103) 100, mkRat 97 100)),
   ("left knee pitch", (mkRat (-227) 100, mkRat (-27) 100)),
   ("left ankle pitch", (mkRat (-827) 1000, mkRat 1173 1000)),
   ("left ankle roll", (mkRat 75 100, mkRat 275 100)),
   ("right hip pitch", (mkRat (-58) 100, mkRat 142 100)),
   ("right hip yaw", (mkRat (-22) 10, mkRat (-16) 10)),
   ("right hip roll", (mkRat (-265) 100, mkRat (-65) 100)),
   ("right knee pitch", (mkRat 23 10, mkRat 43 10)),
   ("right ankle pitch", (mkRat (-258) 1000, mkRat 1742 1000)),
   ("right ankle roll", (mkRat 69 100, mkRat 269 100))]

/-- `Stompy.stiffness()` (p-gains, keyed by category). -/
def Stompy.stiffness : List (String × ℚ) :=
  [("hip pitch", 250), ("hip yaw", 150), ("hip roll", 150),
   ("knee pitch", 150), ("ankle pitch", 40), ("ankle roll", 40)]

/-- `Stompy.damping()` (d-gains, keyed by category). -/
def Stompy.damping : List (String × ℚ) :=
  [("hip pitch", 10), ("hip yaw", 7), ("hip roll", 7),
   ("knee pitch", 7), ("ankle pitch", 1), ("ankle roll", mkRat 3 10)]

/-- `Stompy.effort()`. -/
def Stompy.effort : List (String × ℚ) :=
  [("hip pitch", 150), ("hip yaw", 90), ("hip roll", 90),
   ("knee pitch", 90), ("ankle pitch", 24), ("ankle roll", 24)]

/-- `Stompy.velocity()`. -/
def Stompy.velocity : List (String × ℚ) :=
  [("hip pitch", 40), ("hip yaw", 40), ("hip roll", 40),
   ("knee pitch", 40), ("ankle pitch", 24), ("ankle roll", 24)]

/-- `Stompy.friction()`. -/
def Stompy.friction : List (String × ℚ) :=
  [("hip pitch", 0), ("hip yaw", 0), ("hip roll", 0),
   ("knee pitch", 0), ("ankle pitch", 0), ("ankle roll", mkRat 1 10)]

/-! ## Substring matching (Python's `key in joint_name` on strings) -/

/-- `leadsWith n h`: `n` is an initial segment of `h`. -/
def leadsWith : List Char → List Char → Bool
  | [], _ => true
  | _ :: _, [] => false
  | a :: as, b :: bs => a == b && leadsWith as bs

/-- `occursIn n h`: `n` occurs contiguously somewhere in `h`. -/
def occursIn : List Char → List Char → Bool
  | n, [] => n.isEmpty
  | n, c :: rest => leadsWith n (c :: rest) || occursIn n rest

/-- Python's `needle in haystack` on strings: contiguous substring test. -/
def substrIn (needle haystack : String) : Bool :=
  occursIn needle.data haystack.data

/-! ## Gain resolution (`run_id_test` in `calibration.py`)

```
kd = 10
kp = 250
for joint_name, value in Stompy.damping().items():
    if joint_name in joint_id:
        kd = value
        break
for joint_name, value in Stompy.stiffness().items():
    if joint_name in joint_id:
        kp = value
        break
```
The `break` makes the *first* matching category (in dict declaration order)
win; if no category name occurs in the joint name the initial `kd = 10`,
`kp = 250` survive. -/

/-- First table entry whose category name occurs in `joint`, else `dflt`. -/
def firstMatch (table : List (String × ℚ)) (joint : String) (dflt : ℚ) : ℚ :=
  match table with
  | [] => dflt
  | (cat, v) :: rest => if substrIn cat joint then v else firstMatch rest joint dflt

/-- The `kp` resolved by `run_id_test` for a joint. -/
def resolvedKp (joint : String) : ℚ := firstMatch Stompy.stiffness joint 250

/-- The `kd` resolved by `run_id_test` for a joint. -/
def resolvedKd (joint : String) : ℚ := firstMatch Stompy.damping joint 10

/-- The first category (table key) whose name occurs in the joint's name, in
table-declaration order; `none` when the joint matches no category. -/
def firstCategory (joint : String) : Option String :=
  (Stompy.stiffness.map Prod.fst).find? (fun cat => substrIn cat joint)

/-! ## URDF limit rewriting (`update_urdf` in `create_fixed_torso.py`)

```
for key, value in effort.items():
    if key in joint_name:
        limit.set("effort", str(value))
```
No `break`: every matching category overwrites the attribute, so the *last*
match in declaration order is what ends up in the file; when nothing
matches, the attribute is never written (`none`). -/

/-- Final value of an attribute repeatedly overwritten by every matching
table entry, in table order; `none` if never written. -/
def lastMatch (table : List (String × ℚ)) (joint : String) : Option ℚ :=
  table.foldl (fun acc p => if substrIn p.1 joint then some p.2 else acc) none

/-- Modelled from the spec: "the first match in table-declaration order
wins" as an optional lookup, for comparison with the code's `lastMatch`. -/
def specFirstMatch (table : List (String × ℚ)) (joint : String) : Option ℚ :=
  match table with
  | [] => none
  | (cat, v) :: rest => if substrIn cat joint then some v else specFirstMatch rest joint

/-! ## Control law and sinusoidal-identification torque (`calibration.py`) -/

/-- `pd_control(target_q, q, kp, dq, kd, default)`:
`kp * (target_q + default - q) - kd * dq`. -/
def pd_control (target_q q kp dq kd default : ℚ) : ℚ :=
  kp * (target_q + default - q) - kd * dq

/-- `torque_limits = 18` in `run_id_test`. -/
def torque_limits : ℚ := 18

/-- `TORQUE_SOFT = 18` in `run_id_test`. -/
def TORQUE_SOFT : ℚ := 18

/-- Binary minimum on ℚ (computable form). -/
def qmin (a b : ℚ) : ℚ := if a ≤ b then a else b

/-- Binary maximum on ℚ (computable form). -/
def qmax (a b : ℚ) : ℚ := if a ≤ b then b else a

/-- `torch.clip(x, -lim, lim)` = `max(-lim, min(x, lim))`. -/
def clip (x lim : ℚ) : ℚ := qmax (-lim) (qmin x lim)

/-- Per-joint value lookup in `default_standing` (in `run_id_test` the
`set_positions` tensor starts at zero and is then filled from
`Stompy.default_standing()` for every joint in the dict, so absent joints
keep 0). -/
def defaultQ (joint : String) : ℚ :=
  (Stompy.default_standing.lookup joint).getD 0

/-- The `set_positions` row built each `sin_id` sub-step: every joint gets
its default standing angle, then the target joint's slot is overwritten
with `sin_pos` (the `# + default_pos` correction is commented out in the
source). -/
def setPositions (target : String) (sinPos : ℚ) (joint : String) : ℚ :=
  if joint = target then sinPos else defaultQ joint

/-- The torque `run_id_test` (mode `sin_id`) commands to joint `joint` in
one sub-step:
`pd_control(sin_pos, dof_pos[id], kp, dof_vel[id], kd, set_positions[id])`
followed by `torch.clip(·, -torque_limits, torque_limits)`, where `kp`/`kd`
are the single scalars resolved for the *target* joint and `sin_pos` is the
shared `target_q` for every joint. -/
def sinIdTorque (target : String) (sinPos : ℚ) (q dq : String → ℚ)
    (joint : String) : ℚ :=
  clip (pd_control sinPos (q joint) (resolvedKp target) (dq joint)
          (resolvedKd target) (setPositions target sinPos joint))
    torque_limits

/-- Modelled from the spec: the per-joint torque the claim describes — the
Control Law with the sinusoidal reference as `target_q` for the target
joint and `0` for every other joint, each joint's *own* default standing
angle as `default_q` and each joint's *own* resolved gains, clipped to
`±torque_limit`. -/
def sinIdTorqueSpec (target : String) (sinPos : ℚ) (q dq : String → ℚ)
    (joint : String) : ℚ :=
  clip (pd_control (if joint = target then sinPos else 0) (q joint)
          (resolvedKp joint) (dq joint) (resolvedKd joint) (defaultQ joint))
    torque_limits

/-! ## Calibration loop structure (`run_id_test` in `calibration.py`) -/

/-- `steps = 10000`. -/
def steps : ℕ := 10000

/-- `decimation = 5`. -/
def decimation : ℕ := 5

/-- A `while step < bound: ...; record f(step); step += 1` loop started at
`step`, returning the recorded samples in order.  Each iteration records
exactly one sample (after its `decimation` physics sub-steps, which do not
affect the recording count). -/
def collectLoop {α : Type} (bound : ℕ) (f : ℕ → α) (step : ℕ) : List α :=
  if step < bound then f step :: collectLoop bound f (step + 1) else []
termination_by bound - step

/-- The `sin_id` settle loop `while step < 100: simulate; step += 1`
(records nothing), returning the final value of `step`. -/
def settleLoop (step : ℕ) : ℕ :=
  if step < 100 then settleLoop (step + 1) else step
termination_by 100 - step

/-- The `sin_id` trace: after the settle loop, the
`while step < 10000` track loop appends one `(step, q - default_pos, dq)`
sample per control tick; `posO`/`velO` give the simulator readings at each
tick. -/
def sinIdTrace (posO velO : ℕ → ℚ) : List (ℕ × ℚ × ℚ) :=
  collectLoop 10000 (fun s => (s, posO s, velO s)) (settleLoop 0)

/-- One ramp phase of `calibration` mode:
`while step < steps/40: <decimation sub-steps>; positions.append(q); step += 1`
started at `step = 0`; `oracle` gives the position reading appended at each
tick (`10000/40 = 250` exactly, so Python's float bound equals the integer
`steps / 40`). -/
def rampPhase (oracle : ℕ → ℚ) : List ℚ :=
  collectLoop (steps / 40) oracle 0

/-- The persisted `positions` trace of `calibration` mode: the `RampHigh`
appends followed by the `RampLow` appends (the initial 100-iteration settle
`for` loop records nothing). -/
def sweepPositions (hiOracle loOracle : ℕ → ℚ) : List ℚ :=
  rampPhase hiOracle ++ rampPhase loOracle

/-! ## Driver loop (`main` in `calibration.py`)

```
for joint in Stompy.default_standing().keys():
    if "shoulder" in joint: continue
    if "elbow" in joint: continue
    if "wrist" in joint: continue
    if "ankle" in joint:
        run_id_test(gym, joint_id=joint, mode=MODE)
```
-/

/-- The joints `main` actually runs `run_id_test` on, in iteration order. -/
def mainCalibratedJoints : List String :=
  (Stompy.default_standing.map Prod.fst).filterMap (fun joint =>
    if substrIn "shoulder" joint then none
    else if substrIn "elbow" joint then none
    else if substrIn "wrist" joint then none
    else if substrIn "ankle" joint then some joint
    else none)

/-- Modelled from the spec: the joints the claim says are calibrated — the
flattened taxonomy minus the exclusion set {shoulder, elbow, wrist, ankle},
in taxonomy order. -/
def claimedCalibratedJoints : List String :=
  Stompy.allJointsList.filter (fun joint =>
    !(substrIn "shoulder" joint || substrIn "elbow" joint ||
      substrIn "wrist" joint || substrIn "ankle" joint))

/-! ## Taxonomy construction and the duplicate check (`joints.py`)

Defining a Python `Node` subclass just records its attribute list; no
validation of any kind runs at class-definition time, so construction is a
total function.  The only duplicate check in the source is the assertion in
`print_joints`:

```
joints = Stompy.all_joints()
assert len(joints) == len(set(joints)), "Duplicate joint names found!"
```
-/

/-- Taxonomy construction: building a `Node` subclass from its attribute
list.  The source has no check here — construction always succeeds. -/
def constructTaxonomy (attrs : AttrList) : Except String Child :=
  .ok (.node attrs)

/-- The assertion of `print_joints`, applied to a taxonomy root (the source
hardcodes `Stompy`): `len(joints) == len(set(joints))`, with `set` size
modelled by `List.dedup`; on failure Python raises `AssertionError` with
the given message. -/
def print_joints (root : Child) : Except String Unit :=
  let joints := Node.all_joints root
  if joints.length = joints.dedup.length then .ok ()
  else .error "Duplicate joint names found!"

/-- A two-leaf taxonomy whose leaves share the identifier `"x"`. -/
def dupAttrs : AttrList := .ofList [("a", .leaf "x"), ("b", .leaf "x")]

/-- The (successfully constructed) duplicate-leaf taxonomy. -/
def dupTree : Child := .node dupAttrs

/-- A reordered declaration of the same taxonomy (every attribute list
reversed), used to check that `all_joints` does not depend on declaration
order. -/
def Stompy.treeShuffled : Child := .node (.ofList
  [("legs", .node (.ofList
    [("right", .node (.ofList
      [("ankle_roll", .leaf "right ankle roll"),
       ("ankle_pitch", .leaf "right ankle pitch"),
       ("knee_pitch", .leaf "right knee pitch"),
       ("hip_pitch", .leaf "right hip pitch"),
       ("hip_yaw", .leaf "right hip yaw"),
       ("hip_roll", .leaf "right hip roll")])),
     ("left", .node (.ofList
      [("ankle_roll", .leaf "left ankle roll"),
       ("ankle_pitch", .leaf "left ankle pitch"),
       ("knee_pitch", .leaf "left knee pitch"),
       ("hip_pitch", .leaf "left hip pitch"),
       ("hip_yaw", .leaf "left hip yaw"),
       ("hip_roll", .leaf "left hip roll")]))]))])

/-! ## General lemmas -/

/-- `collectLoop` from `step` records `f` at `step, step+1, …, bound-1`. -/
theorem collectLoop_eq_aux {α : Type} (n : ℕ) (bound : ℕ) (f : ℕ → α) :
    ∀ step, bound - step = n → collectLoop bound f step = (List.range' step n).map f := by
  induction n with
  | zero =>
      intro step h
      rw [collectLoop]
      have hlt : ¬ step < bound := by omega
      simp [hlt]
  | succ k ih =>
      intro step h
      rw [collectLoop]
      have hlt : step < bound := by omega
      rw [if_pos hlt, ih (step + 1) (by omega), List.range'_succ]
      simp

theorem collectLoop_eq {α : Type} (bound : ℕ) (f : ℕ → α) (step : ℕ) :
    collectLoop bound f step = (List.range' step (bound - step)).map f :=
  collectLoop_eq_aux (bound - step) bound f step rfl

theorem settleLoop_eq_aux (n : ℕ) :
    ∀ step, 100 - step = n → step ≤ 100 → settleLoop step = 100 := by
  induction n with
  | zero =>
      intro step h hle
      rw [settleLoop]
      have hlt : ¬ step < 100 := by omega
      rw [if_neg hlt]
      omega
  | succ k ih =>
      intro step h hle
      rw [settleLoop]
      have hlt : step < 100 := by omega
      rw [if_pos hlt]
      exact ih (step + 1) (by omega) (by omega)

/-- The settle loop of `sin_id` leaves `step = 100`. -/
theorem settleLoop_zero : settleLoop 0 = 100 :=
  settleLoop_eq_aux 100 0 rfl (by omega)

/-- The assert's `len(joints) == len(set(joints))` test is exactly
duplicate-freedom. -/
theorem length_eq_dedup_iff {α : Type} [DecidableEq α] (l : List α) :
    l.length = l.dedup.length ↔ l.Nodup := by
  constructor
  · intro h
    have hsub : l.dedup.Sublist l := List.dedup_sublist l
    have heq : l.dedup = l := hsub.eq_of_length (by omega)
    rw [← heq]
    exact List.nodup_dedup l
  · intro h
    rw [List.dedup_eq_self.mpr h]

/-- The break-on-first-match loop returns the head of the matching entries
(in table order), or the pre-loop default when nothing matches. -/
theorem firstMatch_eq_head (table : List (String × ℚ)) (joint : String) (dflt : ℚ) :
    firstMatch table joint dflt
      = (((table.filter (fun p => substrIn p.1 joint)).map Prod.snd).head?).getD dflt := by
  induction table with
  | nil => rfl
  | cons p rest ih =>
      obtain ⟨c, v⟩ := p
      rw [firstMatch]
      by_cases h : substrIn c joint
      · simp [List.filter_cons, h]
      · simp [List.filter_cons, h, ih]

/-- `specFirstMatch` returns the head of the matching entries. -/
theorem specFirstMatch_eq_head (table : List (String × ℚ)) (joint : String) :
    specFirstMatch table joint
      = ((table.filter (fun p => substrIn p.1 joint)).map Prod.snd).head? := by
  induction table with
  | nil => rfl
  | cons p rest ih =>
      obtain ⟨c, v⟩ := p
      rw [specFirstMatch]
      by_cases h : substrIn c joint
      · simp [List.filter_cons, h]
      · simp [List.filter_cons, h, ih]

/-- The overwrite-on-every-match loop ends with the *last* matching entry
(in table order), or its initial value when nothing matches. -/
theorem foldl_overwrite (joint : String) (table : List (String × ℚ)) :
    ∀ init : Option ℚ,
      table.foldl (fun acc p => if substrIn p.1 joint then some p.2 else acc) init
        = (((table.filter (fun p => substrIn p.1 joint)).map Prod.snd).getLast?).or init := by
  induction table using List.reverseRecOn with
  | nil => intro init; simp
  | append_singleton l p ih =>
      intro init
      rw [List.foldl_append, List.foldl_cons, List.foldl_nil, List.filter_append,
        List.map_append]
      by_cases h : substrIn p.1 joint
      · simp [List.filter_cons, h, List.getLast?_concat]
      · simp [List.filter_cons, h, ih]

/-- `lastMatch` is the last matching table entry. -/
theorem lastMatch_eq_getLast (table : List (String × ℚ)) (joint : String) :
    lastMatch table joint
      = ((table.filter (fun p => substrIn p.1 joint)).map Prod.snd).getLast? := by
  rw [lastMatch, foldl_overwrite, Option.or_none]

/-- When no table entry matches, the break-on-first-match loop keeps the
default it was initialized with. -/
theorem firstMatch_no_match (table : List (String × ℚ)) (joint : String) (dflt : ℚ)
    (h : ∀ p ∈ table, substrIn p.1 joint = false) :
    firstMatch table joint dflt = dflt := by
  induction table with
  | nil => rfl
  | cons p rest ih =>
      obtain ⟨c, v⟩ := p
      rw [firstMatch]
      have hc : substrIn c joint = false := h (c, v) (by simp)
      rw [hc]
      simp only [Bool.false_eq_true, if_false]
      exact ih (fun q hq => h q (List.mem_cons_of_mem _ hq))

/-- `clip · torque_limits` lands in `[-torque_limits, torque_limits]`. -/
theorem clip_torque_bounds (x : ℚ) :
    -torque_limits ≤ clip x torque_limits ∧ clip x torque_limits ≤ torque_limits := by
  unfold clip qmax qmin torque_limits
  split_ifs <;> constructor <;> linarith

/-! ## Decimal-literal cross-checks

The tables above write the source's decimal constants as exact fractions;
these lemmas check them against the decimal literals of the Python source. -/

theorem Stompy.default_standing_decimals :
    Stompy.default_standing =
      [("left hip pitch", -1.2), ("left hip yaw", 1.06), ("left hip roll", -0.03),
       ("left knee pitch", -1.27), ("left ankle pitch", 0.173), ("left ankle roll", 1.75),
       ("right hip pitch", 0.42), ("right hip yaw", -2.08), ("right hip roll", -1.65),
       ("right knee pitch", 3.3), ("right ankle pitch", 0.742), ("right ankle roll", 1.69)] := by
  norm_num [Stompy.default_standing, Rat.mkRat_eq_div]

theorem Stompy.default_limits_decimals :
    Stompy.default_limits =
      [("left hip pitch", (-2.2, -0.2)), ("left hip yaw", (0.6, 1.2)),
       ("left hip roll", (-1.03, 0.97)), ("left knee pitch", (-2.27, -0.27)),
       ("left ankle pitch", (-0.827, 1.173)), ("left ankle roll", (0.75, 2.75)),
       ("right hip pitch", (-0.58, 1.42)), ("right hip yaw", (-2.2, -1.6)),
       ("right hip roll", (-2.65, -0.65)), ("right knee pitch", (2.3, 4.3)),
       ("right ankle pitch", (-0.258, 1.742)), ("right ankle roll", (0.69, 2.69))] := by
  norm_num [Stompy.default_limits, Rat.mkRat_eq_div]

theorem Stompy.gain_decimals :
    Stompy.damping.map Prod.snd = [10, 7, 7, 7, 1, 0.3] ∧
    Stompy.friction.map Prod.snd = [0, 0, 0, 0, 0, 0.1] := by
  constructor <;> norm_num [Stompy.damping, Stompy.friction, Rat.mkRat_eq_div]

/-! ## Claim theorems -/

/-- C1 (counterexample): in the `sin_id` Track phase the commanded torques
are *not* those of the claim.  With target joint "left ankle pitch",
`sin_pos = 0.1`, all joints at their default standing angles and zero
velocity: the code commands 4 N·m to "left hip pitch" (the claim's law
gives 0, since its `target_q` is 0 there and it would use hip-pitch gains),
and 1.08 N·m to the target joint itself (the claim's law gives 4, since the
code substitutes `sin_pos` — not the default standing angle — for the
target's `default_q`). -/
theorem C1_counterexample :
    sinIdTorque "left ankle pitch" (mkRat 1 10) defaultQ (fun _ => 0) "left hip pitch" = 4 ∧
    sinIdTorqueSpec "left ankle pitch" (mkRat 1 10) defaultQ (fun _ => 0) "left hip pitch" = 0 ∧
    sinIdTorque "left ankle pitch" (mkRat 1 10) defaultQ (fun _ => 0) "left ankle pitch"
      = mkRat 108 100 ∧
    sinIdTorqueSpec "left ankle pitch" (mkRat 1 10) defaultQ (fun _ => 0) "left ankle pitch" = 4 ∧
    sinIdTorque "left ankle pitch" (mkRat 1 10) defaultQ (fun _ => 0) "left hip pitch"
      ≠ sinIdTorqueSpec "left ankle pitch" (mkRat 1 10) defaultQ (fun _ => 0) "left hip pitch" := by
  have h1 : sinIdTorque "left ankle pitch" (mkRat 1 10) defaultQ (fun _ => 0) "left hip pitch"
      = 4 := by
    have hkp : resolvedKp "left ankle pitch" = 40 := rfl
    have hkd : resolvedKd "left ankle pitch" = 1 := rfl
    have hq : defaultQ "left hip pitch" = mkRat (-12) 10 := rfl
    have hsp : setPositions "left ankle pitch" (mkRat 1 10) "left hip pitch"
        = mkRat (-12) 10 := rfl
    unfold sinIdTorque
    rw [hkp, hkd, hq, hsp]
    norm_num [pd_control, clip, qmax, qmin, torque_limits, Rat.mkRat_eq_div]
  have h2 : sinIdTorqueSpec "left ankle pitch" (mkRat 1 10) defaultQ (fun _ => 0) "left hip pitch"
      = 0 := by
    have hkp : resolvedKp "left hip pitch" = 250 := rfl
    have hkd : resolvedKd "left hip pitch" = 10 := rfl
    have hq : defaultQ "left hip pitch" = mkRat (-12) 10 := rfl
    unfold sinIdTorqueSpec
    rw [if_neg (by decide), hkp, hkd, hq]
    norm_num [pd_control, clip, qmax, qmin, torque_limits, Rat.mkRat_eq_div]
  have h3 : sinIdTorque "left ankle pitch" (mkRat 1 10) defaultQ (fun _ => 0) "left ankle pitch"
      = mkRat 108 100 := by
    have hkp : resolvedKp "left ankle pitch" = 40 := rfl
    have hkd : resolvedKd "left ankle pitch" = 1 := rfl
    have hq : defaultQ "left ankle pitch" = mkRat 173 1000 := rfl
    have hsp : setPositions "left ankle pitch" (mkRat 1 10) "left ankle pitch"
        = mkRat 1 10 := rfl
    unfold sinIdTorque
    rw [hkp, hkd, hq, hsp]
    norm_num [pd_control, clip, qmax, qmin, torque_limits, Rat.mkRat_eq_div]
  have h4 : sinIdTorqueSpec "left ankle pitch" (mkRat 1 10) defaultQ (fun _ => 0) "left ankle pitch"
      = 4 := by
    have hkp : resolvedKp "left ankle pitch" = 40 := rfl
    have hkd : resolvedKd "left ankle pitch" = 1 := rfl
    have hq : defaultQ "left ankle pitch" = mkRat 173 1000 := rfl
    unfold sinIdTorqueSpec
    rw [if_pos rfl, hkp, hkd, hq]
    norm_num [pd_control, clip, qmax, qmin, torque_limits, Rat.mkRat_eq_div]
  refine ⟨h1, h2, h3, h4, ?_⟩
  rw [h1, h2]
  norm_num

/-- C1 (amended): in the Track phase, every control sub-step commands to
each joint the torque
`clip(kp_target * (sin_pos + d_j - q_j) - kd_target * dq_j, ±torque_limits)`,
where `d_j` is the joint's default standing angle except for the target
joint, whose slot holds `sin_pos` itself; the gains are the *target*
joint's resolved `(kp, kd)` for every joint, `sin_pos` is the shared
`target_q` for every joint, and every torque is clipped to
`±torque_limits = ±18`. -/
theorem C1_sin_id_torque :
    ∀ (target : String) (sinPos : ℚ) (q dq : String → ℚ) (joint : String),
      sinIdTorque target sinPos q dq joint
        = clip (resolvedKp target
              * (sinPos + (if joint = target then sinPos else defaultQ joint) - q joint)
            - resolvedKd target * dq joint) torque_limits
      ∧ -torque_limits ≤ sinIdTorque target sinPos q dq joint
      ∧ sinIdTorque target sinPos q dq joint ≤ torque_limits := by
  intro target sinPos q dq joint
  exact ⟨rfl, clip_torque_bounds _⟩

/-- C2 (counterexample): the driver loop calibrates exactly the four ankle
joints; "left hip pitch" is outside the claimed exclusion set yet never
calibrated, and the claimed joint list differs from the actual one. -/
theorem C2_counterexample :
    mainCalibratedJoints
      = ["left ankle pitch", "left ankle roll", "right ankle pitch", "right ankle roll"] ∧
    "left hip pitch" ∈ claimedCalibratedJoints ∧
    "left hip pitch" ∉ mainCalibratedJoints ∧
    claimedCalibratedJoints ≠ mainCalibratedJoints := by decide

/-- C2 (amended): the driver loop iterates over the keys of
`default_standing` (the same twelve joints as the flattened taxonomy, in
the dict's declaration order, not taxonomy order); the shoulder/elbow/wrist
skips never fire on this taxonomy, and `run_id_test` runs exactly for the
joints whose name contains "ankle". -/
theorem C2_driver_loop :
    mainCalibratedJoints
      = (Stompy.default_standing.map Prod.fst).filter (fun joint => substrIn "ankle" joint) ∧
    (Stompy.default_standing.map Prod.fst).Perm Stompy.allJointsList ∧
    ((Stompy.default_standing.map Prod.fst).all (fun joint =>
        !(substrIn "shoulder" joint || substrIn "elbow" joint || substrIn "wrist" joint)))
      = true := by decide

/-- C3 (counterexample): a taxonomy whose two leaves share the identifier
"x" is constructed without any error — no duplicate check runs at
construction time. -/
theorem C3_counterexample :
    constructTaxonomy dupAttrs = Except.ok dupTree ∧
    ¬ (Node.all_joints dupTree).Nodup := by
  exact ⟨rfl, by decide⟩

/-- C3 (amended): taxonomy construction never fails; duplicate joint
identifiers are detected only lazily, by the assertion inside
`print_joints` (an `AssertionError` with message "Duplicate joint names
found!", not a `DuplicateJointError`, and only when that function is
called), whose success is exactly duplicate-freedom of the flattening. -/
theorem C3_lazy_duplicate_check :
    (∀ attrs : AttrList, constructTaxonomy attrs = Except.ok (Child.node attrs)) ∧
    (∀ root : Child, print_joints root = Except.ok () ↔ (Node.all_joints root).Nodup) ∧
    print_joints dupTree = Except.error "Duplicate joint names found!" ∧
    print_joints Stompy.tree = Except.ok () := by
  refine ⟨fun _ => rfl, ?_, rfl, rfl⟩
  intro root
  simp only [print_joints]
  split_ifs with h
  · exact iff_of_true rfl ((length_eq_dedup_iff _).mp h)
  · exact iff_of_false (by simp) (fun hn => h ((length_eq_dedup_iff _).mpr hn))

/-- C4 (counterexample): the joint "left shoulder pitch" matches no
category in the stiffness or damping tables, yet gain resolution silently
yields the pre-loop defaults `kp = 250`, `kd = 10` — no
`UnknownJointCategoryError` exists in the code. -/
theorem C4_counterexample :
    (Stompy.stiffness.all (fun p => !substrIn p.1 "left shoulder pitch")) = true ∧
    (Stompy.damping.all (fun p => !substrIn p.1 "left shoulder pitch")) = true ∧
    resolvedKp "left shoulder pitch" = 250 ∧
    resolvedKd "left shoulder pitch" = 10 := by decide

/-- C4 (amended): for any joint whose name contains no known category
substring, gain resolution does not fail: it silently falls back to the
defaults `kp = 250`, `kd = 10` set before the lookup loops. -/
theorem C4_silent_fallback (joint : String)
    (hs : ∀ p ∈ Stompy.stiffness, substrIn p.1 joint = false)
    (hd : ∀ p ∈ Stompy.damping, substrIn p.1 joint = false) :
    resolvedKp joint = 250 ∧ resolvedKd joint = 10 :=
  ⟨firstMatch_no_match _ _ _ hs, firstMatch_no_match _ _ _ hd⟩

/-- C4 (witness): the fallback theorem applied to "left shoulder pitch". -/
theorem C4_silent_fallback_witness :
    resolvedKp "left shoulder pitch" = 250 ∧ resolvedKd "left shoulder pitch" = 10 :=
  C4_silent_fallback "left shoulder pitch" (by decide) (by decide)

/-- C5: the control law returns
`kp * (target_q + default_q - current_q) - kd * current_dq` for all
(rational-modelled) inputs, and in particular the three reference values
0, 100 and −20. -/
theorem C5_control_law :
    (∀ target_q q kp dq kd default : ℚ,
        pd_control target_q q kp dq kd default
          = kp * (target_q + default - q) - kd * dq) ∧
    pd_control 0 0 100 0 10 0 = 0 ∧
    pd_control 1 0 100 0 10 0 = 100 ∧
    pd_control 0 0 100 2 10 0 = -20 := by
  refine ⟨fun _ _ _ _ _ _ => rfl, ?_, ?_, ?_⟩ <;> norm_num [pd_control]

/-- C6 (counterexample): `all_joints()` on the reference taxonomy does not
enumerate leaves in left-to-right declaration order: its first element is
"left ankle pitch" while the first declared leaf is "left hip roll". -/
theorem C6_counterexample :
    Node.all_joints Stompy.tree ≠ Node.declarationOrderJoints Stompy.tree ∧
    (Node.all_joints Stompy.tree).head? = some "left ankle pitch" ∧
    (Node.declarationOrderJoints Stompy.tree).head? = some "left hip roll" := by decide

/-- C6 (amended): `all_joints()` is deterministic — independent of the
declaration order of the class attributes, because `dir()` canonicalizes
them alphabetically — and enumerates the leaves depth-first with each
node's attributes in alphabetical attribute-name order. -/
theorem C6_dir_order :
    Node.all_joints Stompy.treeShuffled = Node.all_joints Stompy.tree ∧
    Stompy.allJointsList =
      ["left ankle pitch", "left ankle roll", "left hip pitch", "left hip roll",
       "left hip yaw", "left knee pitch", "right ankle pitch", "right ankle roll",
       "right hip pitch", "right hip roll", "right hip yaw", "right knee pitch"] := by decide

/-- C7 (counterexample): for the multi-match joint name
"left hip pitch ankle pitch" (contains both "hip pitch" and "ankle pitch"),
the URDF effort rewrite ends with the *last* matching category's value 24,
not the first match's 150 as the claim states. -/
theorem C7_counterexample :
    substrIn "hip pitch" "left hip pitch ankle pitch" = true ∧
    substrIn "ankle pitch" "left hip pitch ankle pitch" = true ∧
    specFirstMatch Stompy.effort "left hip pitch ankle pitch" = some 150 ∧
    lastMatch Stompy.effort "left hip pitch ankle pitch" = some 24 ∧
    lastMatch Stompy.effort "left hip pitch ankle pitch"
      ≠ specFirstMatch Stompy.effort "left hip pitch ankle pitch" := by decide

/-- C7 (amended): the first matching category in table-declaration order
wins for the stiffness and damping tables (the calibration gain loops break
at the first match), but for the effort, velocity and friction tables (the
URDF rewrite loops, which overwrite on every match without breaking) the
*last* matching category in table-declaration order wins. -/
theorem C7_match_order :
    (∀ joint dflt, firstMatch Stompy.stiffness joint dflt
        = (((Stompy.stiffness.filter (fun p => substrIn p.1 joint)).map Prod.snd).head?).getD
            dflt) ∧
    (∀ joint dflt, firstMatch Stompy.damping joint dflt
        = (((Stompy.damping.filter (fun p => substrIn p.1 joint)).map Prod.snd).head?).getD
            dflt) ∧
    (∀ joint, lastMatch Stompy.effort joint
        = ((Stompy.effort.filter (fun p => substrIn p.1 joint)).map Prod.snd).getLast?) ∧
    (∀ joint, lastMatch Stompy.velocity joint
        = ((Stompy.velocity.filter (fun p => substrIn p.1 joint)).map Prod.snd).getLast?) ∧
    (∀ joint, lastMatch Stompy.friction joint
        = ((Stompy.friction.filter (fun p => substrIn p.1 joint)).map Prod.snd).getLast?) :=
  ⟨fun joint dflt => firstMatch_eq_head _ joint dflt,
   fun joint dflt => firstMatch_eq_head _ joint dflt,
   fun joint => lastMatch_eq_getLast _ joint,
   fun joint => lastMatch_eq_getLast _ joint,
   fun joint => lastMatch_eq_getLast _ joint⟩

/-- C8: for every joint of the reference 12-joint taxonomy, a category is
found, a default standing angle and travel limits are found, and
`lower_limit ≤ default_angle ≤ upper_limit`. -/
theorem C8_resolution :
    ∀ joint ∈ Stompy.allJointsList,
      (firstCategory joint).isSome = true ∧
      (Stompy.default_standing.lookup joint).isSome = true ∧
      (Stompy.default_limits.lookup joint).isSome = true ∧
      ((Stompy.default_limits.lookup joint).getD (0, 0)).1
          ≤ (Stompy.default_standing.lookup joint).getD 0 ∧
      (Stompy.default_standing.lookup joint).getD 0
          ≤ ((Stompy.default_limits.lookup joint).getD (0, 0)).2 := by decide

/-- C8 (witness): the resolution theorem applied to "left knee pitch". -/
theorem C8_resolution_witness :
    (firstCategory "left knee pitch").isSome = true ∧
    (Stompy.default_standing.lookup "left knee pitch").isSome = true ∧
    (Stompy.default_limits.lookup "left knee pitch").isSome = true ∧
    ((Stompy.default_limits.lookup "left knee pitch").getD (0, 0)).1
        ≤ (Stompy.default_standing.lookup "left knee pitch").getD 0 ∧
    (Stompy.default_standing.lookup "left knee pitch").getD 0
        ≤ ((Stompy.default_limits.lookup "left knee pitch").getD (0, 0)).2 :=
  C8_resolution "left knee pitch" (by decide)

/-- C9: in `sin_id` mode the settle loop runs 100 ticks (leaving
`step = 100`) and the track loop then records exactly one
`(step, position, velocity)` sample per control tick for
`steps − 100 = 9900` ticks, at steps 100, 101, …, 9999. -/
theorem C9_tick_budget (posO velO : ℕ → ℚ) :
    (sinIdTrace posO velO).length = steps - 100 ∧
    steps - 100 = 9900 ∧
    (sinIdTrace posO velO).map Prod.fst = List.range' 100 9900 ∧
    settleLoop 0 = 100 := by
  have h : sinIdTrace posO velO
      = (List.range' 100 9900).map (fun s => (s, posO s, velO s)) := by
    rw [sinIdTrace, settleLoop_zero, collectLoop_eq]
  refine ⟨?_, rfl, ?_, settleLoop_zero⟩
  · rw [h, List.length_map, List.length_range']
    rfl
  · rw [h, List.map_map]
    have hc : (Prod.fst ∘ fun s => (s, posO s, velO s)) = id := rfl
    rw [hc, List.map_id]

/-- C10: in static-sweep mode each ramp phase lasts exactly
`steps / 40 = 250` control ticks and appends exactly one position sample
per tick, so the persisted trace is the 250 high-phase samples followed by
the 250 low-phase samples — 500 entries in total. -/
theorem C10_sweep_trace (hiOracle loOracle : ℕ → ℚ) :
    steps / 40 = 250 ∧
    (rampPhase hiOracle).length = 250 ∧
    (rampPhase loOracle).length = 250 ∧
    sweepPositions hiOracle loOracle
      = (List.range' 0 250).map hiOracle ++ (List.range' 0 250).map loOracle ∧
    (sweepPositions hiOracle loOracle).length = 500 := by
  have hr : ∀ o : ℕ → ℚ, rampPhase o = (List.range' 0 250).map o := by
    intro o
    rw [rampPhase, collectLoop_eq]
    norm_num [steps]
  refine ⟨rfl, ?_, ?_, ?_, ?_⟩
  · rw [hr, List.length_map, List.length_range']
  · rw [hr, List.length_map, List.length_range']
  · rw [sweepPositions, hr, hr]
  · rw [sweepPositions, hr, hr]
    simp
